import Mathlib

/-!
Verification development for the hoyasim repository: a 360-degree panorama
viewer with a simulated pair of corrective lenses.  The numeric code of the
repository (src/lib/glasses.ts and src/components/ThreeView.tsx) is shallowly
embedded over the rational numbers; the few THREE.MathUtils helpers the code
calls (smoothstep, mapLinear, degToRad, Math.PI as a fixed constant) are
embedded from their upstream sources.  JavaScript doubles are modelled as
rationals: every claim checked here is an exact algebraic property that is
insensitive to rounding, and the constant `Math.PI` enters only through
positivity/ordering facts that hold for its rational reading as well.
-/

/-- Value of the JavaScript constant `Math.PI` (the shortest decimal that
rounds to the IEEE-754 double), read as a rational.  Every theorem below that
depends on it uses only coarse ordering facts (for example `0 < mathPI`). -/
def mathPI : ℚ := 3.141592653589793

/-- Embedding of `THREE.MathUtils.smoothstep(x, min, max)`: 0 below `min`,
1 above `max`, and the cubic Hermite ramp in between. -/
def smoothstep (x minV maxV : ℚ) : ℚ :=
  if x ≤ minV then 0
  else if maxV ≤ x then 1
  else
    let t := (x - minV) / (maxV - minV)
    t * t * (3 - 2 * t)

/-- Embedding of `THREE.MathUtils.mapLinear(x, a1, a2, b1, b2)`:
`b1 + (x - a1) * (b2 - b1) / (a2 - a1)`. -/
def mapLinear (x a1 a2 b1 b2 : ℚ) : ℚ :=
  b1 + (x - a1) * (b2 - b1) / (a2 - a1)

/-- Embedding of `THREE.MathUtils.degToRad(degrees)`: multiply by PI/180. -/
def degToRad (degrees : ℚ) : ℚ :=
  degrees * (mathPI / 180)

/-! Lens Effect Engine (src/lib/glasses.ts).

Each of the four lens groups (primary/alternate for each eye) carries the
state that `swapLeft`, `swapRight` and `animateSwap` read and write: the
group's vertical position `position.y`, and the `userData.targetY` /
`userData.animating` fields.  In the source `userData` starts out empty, so
`animating` is initially falsy and `targetY` is never read before a swap
first writes it; the embedding fixes the unread initial `targetY` at 0. -/

/-- State of one lens group: `position.y`, `userData.targetY`,
`userData.animating`. -/
structure LensGroup where
  posY : ℚ
  targetY : ℚ
  animating : Bool
deriving Repr, DecidableEq

/-- Mutable state of the loaded glasses closure in `loadGlasses`:
the `leftSwapped` / `rightSwapped` flags, the four groups, the opacities of
the two overlapping left-lens meshes (`refs.lensAMesh` carries the normal
map `mapA`, `refs.lensBMesh` the inverted map `mapB`; `update` writes one
opacity uniformly over each mesh, so one rational per mesh suffices), and
the horizontal offset last used to redraw the right-lens gradient canvas. -/
structure GlassesState where
  leftSwapped : Bool
  rightSwapped : Bool
  leftGroup : LensGroup
  rightGroup : LensGroup
  leftGroupAlt : LensGroup
  rightGroupAlt : LensGroup
  lensAOpacity : ℚ
  lensBOpacity : ℚ
  gradOffset : ℚ
deriving Repr, DecidableEq

/-- State of the engine right after `loadGlasses` resolves: primaries sit at
`position.y = 0`, alternates are parked at `-0.6`, nothing is animating,
`matB.opacity = 0` and `matA.opacity = 1`, and the gradient was first drawn
with offset `-SIZE * 0.2` (`createGradientCanvas`). -/
def initGlasses : GlassesState :=
  { leftSwapped := false
    rightSwapped := false
    leftGroup := { posY := 0, targetY := 0, animating := false }
    rightGroup := { posY := 0, targetY := 0, animating := false }
    leftGroupAlt := { posY := -0.6, targetY := 0, animating := false }
    rightGroupAlt := { posY := -0.6, targetY := 0, animating := false }
    lensAOpacity := 1
    lensBOpacity := 0
    gradOffset := -256 * 0.2 }

/-- Embedding of `update(polarAngle, minPolar, maxPolar)` in
src/lib/glasses.ts: the right lens redraws its gradient at the offset
`mapLinear(polarAngle, minPolar, maxPolar, -SIZE*0.3, SIZE*0.02)` with
`SIZE = 256`, and the left lens cross-fades its two meshes with the eased
smoothstep of `delta = PI/2 - polarAngle` over a one-degree band. -/
def update (s : GlassesState) (polarAngle minPolar maxPolar : ℚ) : GlassesState :=
  let SIZE : ℚ := 256
  let offset := mapLinear polarAngle minPolar maxPolar (-SIZE * 0.3) (SIZE * 0.02)
  let neutral := mathPI / 2
  let delta := neutral - polarAngle
  let t := smoothstep delta 0 (mathPI / 180)
  let eased := 1 - (1 - t) ^ 3
  { s with
    gradOffset := offset
    lensAOpacity := 1 - eased
    lensBOpacity := eased }

/-- Embedding of `swapLeft()`: toggle `leftSwapped`, retarget both left
groups, and mark both animating. -/
def swapLeft (s : GlassesState) : GlassesState :=
  let sw := !s.leftSwapped
  { s with
    leftSwapped := sw
    leftGroup := { s.leftGroup with targetY := if sw then 0.6 else 0, animating := true }
    leftGroupAlt := { s.leftGroupAlt with targetY := if sw then 0 else -0.6, animating := true } }

/-- Embedding of `swapRight()`: toggle `rightSwapped`, retarget both right
groups, and mark both animating. -/
def swapRight (s : GlassesState) : GlassesState :=
  let sw := !s.rightSwapped
  { s with
    rightSwapped := sw
    rightGroup := { s.rightGroup with targetY := if sw then 0.6 else 0, animating := true }
    rightGroupAlt := { s.rightGroupAlt with targetY := if sw then 0 else -0.6, animating := true } }

/-- Per-group body of the `animateSwap()` loop: when the group is animating,
move `position.y` by 0.08 of the remaining distance to `userData.targetY`,
then snap to the target and clear `userData.animating` once the moved
position is within 0.001 of the target. -/
def stepGroup (g : LensGroup) : LensGroup :=
  if g.animating then
    let moved := g.posY + (g.targetY - g.posY) * 0.08
    if |moved - g.targetY| < 0.001 then
      { g with posY := g.targetY, animating := false }
    else
      { g with posY := moved }
  else g

/-- Embedding of `animateSwap()`: apply the per-group step to each of the
four groups (the source iterates over
`[leftGroup, rightGroup, leftGroupAlt, rightGroupAlt]`). -/
def animateSwap (s : GlassesState) : GlassesState :=
  { s with
    leftGroup := stepGroup s.leftGroup
    rightGroup := stepGroup s.rightGroup
    leftGroupAlt := stepGroup s.leftGroupAlt
    rightGroupAlt := stepGroup s.rightGroupAlt }

/-- Cross-fade weight named by the specification for the left lens:
`e = 1 - (1 - smoothstep(PI/2 - polarAngle, 0, PI/180))^3`. -/
def easedOf (polarAngle : ℚ) : ℚ :=
  1 - (1 - smoothstep (mathPI / 2 - polarAngle) 0 (mathPI / 180)) ^ 3

/-- C1: `update` writes opacity `1 - e` to the normal-map left-lens mesh and
`e` to the inverted-map mesh, with
`e = 1 - (1 - smoothstep(PI/2 - polarAngle, 0, PI/180))^3`, and the two
opacities of the left-lens pair sum to exactly 1 for every polar angle. -/
theorem update_left_lens_crossfade (s : GlassesState) (polarAngle minPolar maxPolar : ℚ) :
    (update s polarAngle minPolar maxPolar).lensAOpacity = 1 - easedOf polarAngle ∧
    (update s polarAngle minPolar maxPolar).lensBOpacity = easedOf polarAngle ∧
    (update s polarAngle minPolar maxPolar).lensAOpacity
      + (update s polarAngle minPolar maxPolar).lensBOpacity = 1 := by
  refine ⟨rfl, rfl, ?_⟩
  show (1 - easedOf polarAngle) + easedOf polarAngle = 1
  ring

/-- Numeric distance moved in one `animateSwap()` step:
`group.position.y + (target - group.position.y) * speed` with `speed = 0.08`. -/
def movedY (g : LensGroup) : ℚ :=
  g.posY + (g.targetY - g.posY) * 0.08

/-- Polar-angle lower bound `minPolarAngle = Math.PI / 2.5` fixed in
src/components/ThreeView.tsx. -/
def minPolarAngle : ℚ := mathPI / 2.5

/-- Polar-angle upper bound `maxPolarAngle = Math.PI / 1.6` fixed in
src/components/ThreeView.tsx. -/
def maxPolarAngle : ℚ := mathPI / 1.6

/-- Difference of two `mapLinear` values at the same endpoints. -/
lemma mapLinear_sub (x y a1 a2 b1 b2 : ℚ) :
    mapLinear y a1 a2 b1 b2 - mapLinear x a1 a2 b1 b2 = (y - x) * ((b2 - b1) / (a2 - a1)) := by
  unfold mapLinear
  ring

/-- Monotonicity of `mapLinear` for an increasing source interval and
non-decreasing target values. -/
lemma mapLinear_mono (x y a1 a2 b1 b2 : ℚ) (ha : a1 < a2) (hb : b1 ≤ b2) (hxy : x ≤ y) :
    mapLinear x a1 a2 b1 b2 ≤ mapLinear y a1 a2 b1 b2 := by
  have hk : 0 ≤ (b2 - b1) / (a2 - a1) := div_nonneg (by linarith) (by linarith)
  have hm : 0 ≤ (y - x) * ((b2 - b1) / (a2 - a1)) :=
    mul_nonneg (by linarith) hk
  have hs := mapLinear_sub x y a1 a2 b1 b2
  linarith

/-- A `mapLinear` with positive slope extrapolates strictly below `b1` for
inputs strictly left of `a1`. -/
lemma mapLinear_lt_left (x a1 a2 b1 b2 : ℚ) (ha : a1 < a2) (hb : b1 < b2) (hx : x < a1) :
    mapLinear x a1 a2 b1 b2 < b1 := by
  have hk : 0 < (b2 - b1) / (a2 - a1) := div_pos (by linarith) (by linarith)
  have hm : 0 < (a1 - x) * ((b2 - b1) / (a2 - a1)) :=
    mul_pos (by linarith) hk
  have hs := mapLinear_sub x a1 a1 a2 b1 b2
  have hend : mapLinear a1 a1 a2 b1 b2 = b1 := by
    unfold mapLinear
    ring
  linarith

/-- A `mapLinear` with positive slope extrapolates strictly above `b2` for
inputs strictly right of `a2`. -/
lemma mapLinear_gt_right (x a1 a2 b1 b2 : ℚ) (ha : a1 < a2) (hb : b1 < b2) (hx : a2 < x) :
    b2 < mapLinear x a1 a2 b1 b2 := by
  have hk : 0 < (b2 - b1) / (a2 - a1) := div_pos (by linarith) (by linarith)
  have hm : 0 < (x - a2) * ((b2 - b1) / (a2 - a1)) :=
    mul_pos (by linarith) hk
  have hs := mapLinear_sub a2 x a1 a2 b1 b2
  have hne : a2 - a1 ≠ 0 := by linarith
  have hend : mapLinear a2 a1 a2 b1 b2 = b2 := by
    unfold mapLinear
    field_simp
  linarith

/-- C3: the right-lens gradient offset written by `update` is exactly the
linear map of `polarAngle` from `[minPolar, maxPolar]` to
`[-0.3*size, 0.02*size]` with `size = 256`, hence monotonically
non-decreasing in `polarAngle` on `[minPolar, maxPolar]`. -/
theorem update_grad_offset_linear_mono (s : GlassesState) (polarAngle minPolar maxPolar : ℚ)
    (h : minPolar < maxPolar) :
    (update s polarAngle minPolar maxPolar).gradOffset
      = mapLinear polarAngle minPolar maxPolar (-0.3 * 256) (0.02 * 256) ∧
    ∀ p1 p2, minPolar ≤ p1 → p1 ≤ p2 → p2 ≤ maxPolar →
      (update s p1 minPolar maxPolar).gradOffset ≤ (update s p2 minPolar maxPolar).gradOffset := by
  constructor
  · show mapLinear polarAngle minPolar maxPolar (-(256 : ℚ) * 0.3) ((256 : ℚ) * 0.02)
      = mapLinear polarAngle minPolar maxPolar (-0.3 * 256) (0.02 * 256)
    unfold mapLinear
    ring
  · intro p1 p2 _ h12 _
    show mapLinear p1 minPolar maxPolar (-(256 : ℚ) * 0.3) ((256 : ℚ) * 0.02)
      ≤ mapLinear p2 minPolar maxPolar (-(256 : ℚ) * 0.3) ((256 : ℚ) * 0.02)
    exact mapLinear_mono p1 p2 minPolar maxPolar _ _ h (by norm_num) h12

/-- Witness for C3 at concrete inputs. -/
theorem update_grad_offset_linear_mono_witness :
    (0 : ℚ) < 2 ∧
    (update initGlasses 1 0 2).gradOffset = mapLinear 1 0 2 (-0.3 * 256) (0.02 * 256) := by
  refine ⟨by norm_num, ?_⟩
  exact (update_grad_offset_linear_mono initGlasses 1 0 2 (by norm_num)).1

/-- C4: each `swapLeft` / `swapRight` call toggles that eye's swapped flag,
targets the primary group at 0.6 when swapped and 0 otherwise, the alternate
at 0 when swapped and -0.6 otherwise, and marks both animating; on the fresh
engine one `swapLeft` yields targets 0.6 / 0 with both animating, and a
second `swapLeft` returns the targets to the original resting positions
0 and -0.6. -/
theorem swap_toggle_targets (s : GlassesState) :
    (swapLeft s).leftSwapped = !s.leftSwapped ∧
    (swapLeft s).leftGroup.targetY = (if !s.leftSwapped then 0.6 else 0) ∧
    (swapLeft s).leftGroupAlt.targetY = (if !s.leftSwapped then 0 else -0.6) ∧
    (swapLeft s).leftGroup.animating = true ∧
    (swapLeft s).leftGroupAlt.animating = true ∧
    (swapRight s).rightSwapped = !s.rightSwapped ∧
    (swapRight s).rightGroup.targetY = (if !s.rightSwapped then 0.6 else 0) ∧
    (swapRight s).rightGroupAlt.targetY = (if !s.rightSwapped then 0 else -0.6) ∧
    (swapRight s).rightGroup.animating = true ∧
    (swapRight s).rightGroupAlt.animating = true ∧
    (swapLeft initGlasses).leftGroup.targetY = 0.6 ∧
    (swapLeft initGlasses).leftGroupAlt.targetY = 0 ∧
    (swapLeft initGlasses).leftGroup.animating = true ∧
    (swapLeft initGlasses).leftGroupAlt.animating = true ∧
    (swapLeft (swapLeft initGlasses)).leftGroup.targetY = initGlasses.leftGroup.posY ∧
    (swapLeft (swapLeft initGlasses)).leftGroupAlt.targetY = initGlasses.leftGroupAlt.posY ∧
    (swapLeft (swapLeft initGlasses)).leftGroup.targetY = 0 ∧
    (swapLeft (swapLeft initGlasses)).leftGroupAlt.targetY = -0.6 := by
  refine ⟨rfl, rfl, rfl, rfl, rfl, rfl, rfl, rfl, rfl, rfl, ?_, ?_, rfl, rfl, ?_, ?_, ?_, ?_⟩ <;>
    simp [swapLeft, initGlasses]

/-- Reduction of `stepGroup` for a non-animating group: the loop body is
skipped entirely. -/
lemma stepGroup_of_not_animating (g : LensGroup) (h : g.animating = false) :
    stepGroup g = g := by
  unfold stepGroup
  rw [h]
  simp

/-- Reduction of `stepGroup` for an animating group to the move-then-snap
conditional. -/
lemma stepGroup_of_animating (g : LensGroup) (h : g.animating = true) :
    stepGroup g = if |movedY g - g.targetY| < 0.001
      then { g with posY := g.targetY, animating := false }
      else { g with posY := movedY g } := by
  unfold stepGroup movedY
  rw [if_pos h]

/-- Contraction of one easing move: the distance to the target after the
move is 0.92 of the distance before it. -/
lemma movedY_contracts (g : LensGroup) :
    |movedY g - g.targetY| ≤ |g.posY - g.targetY| := by
  have h92 : movedY g - g.targetY = (g.posY - g.targetY) * (92 / 100) := by
    unfold movedY
    ring
  rw [h92, abs_mul]
  have habs : |(92 : ℚ) / 100| = 92 / 100 := by
    rw [abs_of_nonneg]
    norm_num
  rw [habs]
  nlinarith [abs_nonneg (g.posY - g.targetY)]

/-- C5: one `animateSwap()` step moves each animating group by 0.08 of the
remaining distance toward `targetY` without ever passing the target, snaps
exactly to `targetY` and clears `animating` once the moved position is
within 0.001 of it (so a group already within 0.001 of its target snaps and
repeated calls settle with `animating = false` and no overshoot), and leaves
every non-animating group completely unchanged. -/
theorem animateSwap_step_spec (g : LensGroup) :
    (g.animating = false → stepGroup g = g) ∧
    (g.animating = true →
      (|movedY g - g.targetY| < 0.001 →
        stepGroup g = { g with posY := g.targetY, animating := false }) ∧
      (¬ |movedY g - g.targetY| < 0.001 →
        stepGroup g = { g with posY := movedY g }) ∧
      |movedY g - g.targetY| ≤ |g.posY - g.targetY| ∧
      (g.posY ≤ g.targetY → g.posY ≤ movedY g ∧ movedY g ≤ g.targetY) ∧
      (g.targetY ≤ g.posY → g.targetY ≤ movedY g ∧ movedY g ≤ g.posY) ∧
      (|g.posY - g.targetY| < 0.001 →
        stepGroup g = { g with posY := g.targetY, animating := false })) ∧
    ((stepGroup g).animating = false → stepGroup (stepGroup g) = stepGroup g) ∧
    (∀ s : GlassesState, s.leftGroup.animating = false →
      (animateSwap s).leftGroup = s.leftGroup) := by
  refine ⟨stepGroup_of_not_animating g, ?_, ?_, ?_⟩
  · intro h
    refine ⟨?_, ?_, movedY_contracts g, ?_, ?_, ?_⟩
    · intro hlt
      rw [stepGroup_of_animating g h, if_pos hlt]
    · intro hge
      rw [stepGroup_of_animating g h, if_neg hge]
    · intro hle
      constructor <;> (unfold movedY; nlinarith)
    · intro hle
      constructor <;> (unfold movedY; nlinarith)
    · intro hclose
      have hlt : |movedY g - g.targetY| < 0.001 := lt_of_le_of_lt (movedY_contracts g) hclose
      rw [stepGroup_of_animating g h, if_pos hlt]
  · intro hdone
    exact stepGroup_of_not_animating (stepGroup g) hdone
  · intro s hs
    show stepGroup s.leftGroup = s.leftGroup
    exact stepGroup_of_not_animating s.leftGroup hs

/-- Witness for C5 at a concrete non-animating group. -/
theorem animateSwap_step_spec_witness :
    ({ posY := 0.3, targetY := 0, animating := false } : LensGroup).animating = false ∧
    stepGroup { posY := 0.3, targetY := 0, animating := false }
      = { posY := 0.3, targetY := 0, animating := false } :=
  ⟨rfl, (animateSwap_step_spec { posY := 0.3, targetY := 0, animating := false }).1 rfl⟩

/-- C10: `update` never clamps `polarAngle`: below `minPolar` the gradient
offset extrapolates strictly below `-0.3*256`, above `maxPolar` strictly
above `0.02*256`; and since `acos` yields any polar angle in `[0, Math.PI]`,
which strictly contains `[Math.PI/2.5, Math.PI/1.6]`, the animation loop can
feed `update` polar angles (for example 0 and `Math.PI`) whose offsets lie
outside the stated range. -/
theorem update_no_polar_clamp (s : GlassesState) (polarAngle minPolar maxPolar : ℚ)
    (h : minPolar < maxPolar) :
    (polarAngle < minPolar →
      (update s polarAngle minPolar maxPolar).gradOffset < -0.3 * 256) ∧
    (maxPolar < polarAngle →
      0.02 * 256 < (update s polarAngle minPolar maxPolar).gradOffset) ∧
    (0 < minPolarAngle ∧ minPolarAngle < maxPolarAngle ∧ maxPolarAngle < mathPI) ∧
    (update s 0 minPolarAngle maxPolarAngle).gradOffset < -0.3 * 256 ∧
    0.02 * 256 < (update s mathPI minPolarAngle maxPolarAngle).gradOffset := by
  have hb : (-(256 : ℚ) * 0.3) < (256 : ℚ) * 0.02 := by norm_num
  have hlo : ∀ minP maxP p : ℚ, minP < maxP → p < minP →
      (update s p minP maxP).gradOffset < -0.3 * 256 := by
    intro minP maxP p hmm hp
    have hlt := mapLinear_lt_left p minP maxP (-(256 : ℚ) * 0.3) ((256 : ℚ) * 0.02) hmm hb hp
    show mapLinear p minP maxP (-(256 : ℚ) * 0.3) ((256 : ℚ) * 0.02) < -0.3 * 256
    linarith
  have hhi : ∀ minP maxP p : ℚ, minP < maxP → maxP < p →
      0.02 * 256 < (update s p minP maxP).gradOffset := by
    intro minP maxP p hmm hp
    have hgt := mapLinear_gt_right p minP maxP (-(256 : ℚ) * 0.3) ((256 : ℚ) * 0.02) hmm hb hp
    show (0.02 : ℚ) * 256 < mapLinear p minP maxP (-(256 : ℚ) * 0.3) ((256 : ℚ) * 0.02)
    linarith
  have hpi : 0 < minPolarAngle ∧ minPolarAngle < maxPolarAngle ∧ maxPolarAngle < mathPI := by
    refine ⟨?_, ?_, ?_⟩ <;> norm_num [minPolarAngle, maxPolarAngle, mathPI]
  exact ⟨hlo minPolar maxPolar polarAngle h, hhi minPolar maxPolar polarAngle h, hpi,
    hlo minPolarAngle maxPolarAngle 0 hpi.2.1 hpi.1,
    hhi minPolarAngle maxPolarAngle mathPI hpi.2.1 hpi.2.2⟩

/-- Witness for C10 at concrete inputs. -/
theorem update_no_polar_clamp_witness :
    (0 : ℚ) < 1 ∧ (update initGlasses (-1) 0 1).gradOffset < -0.3 * 256 :=
  ⟨by norm_num, (update_no_polar_clamp initGlasses (-1) 0 1 (by norm_num)).1 (by norm_num)⟩

/-! Asset Load Coordinator (src/components/ThreeView.tsx).

The mount effect tracks `textureLoaded`, `modelsLoaded` and the React
`loading` flag; the environment-texture callback and each model callback
mutate their counter and then call `checkLoadingComplete`, which clears
`loading` when the texture has loaded and `modelsLoaded === totalModels`.
Load completions are modelled as a list of events folded over the state;
in the program each configured model's loader fires at most once, so runs
satisfy `countModel evs ≤ totalModels`. -/

/-- Completion event of one asynchronous load: the environment texture or
one placed model. -/
inductive LoadEvent where
  | texture
  | model
deriving Repr, DecidableEq

/-- Loading-tracker state of the mount effect: the `textureLoaded` flag, the
`modelsLoaded` counter, and the `loading` React flag (readiness is the
`loading` flag clearing, so `loading = false` means the scene is ready). -/
structure LoadState where
  textureLoaded : Bool
  modelsLoaded : ℕ
  loading : Bool
deriving Repr, DecidableEq

/-- Embedding of `checkLoadingComplete`: clear `loading` exactly when
`textureLoaded && modelsLoaded === totalModels`. -/
def checkLoadingComplete (totalModels : ℕ) (s : LoadState) : LoadState :=
  if s.textureLoaded && s.modelsLoaded == totalModels then { s with loading := false } else s

/-- Counter mutation performed by a load callback before it calls
`checkLoadingComplete`: `onTextureLoaded` sets `textureLoaded = true`, each
model callback runs `modelsLoaded++`. -/
def applyLoadEvent (s : LoadState) : LoadEvent → LoadState
  | .texture => { s with textureLoaded := true }
  | .model => { s with modelsLoaded := s.modelsLoaded + 1 }

/-- One complete load callback: mutate the counter, then run
`checkLoadingComplete`. -/
def loadStep (totalModels : ℕ) (s : LoadState) (e : LoadEvent) : LoadState :=
  checkLoadingComplete totalModels (applyLoadEvent s e)

/-- Fold a sequence of load completions over the tracker state. -/
def runLoadEvents (totalModels : ℕ) (s : LoadState) (evs : List LoadEvent) : LoadState :=
  evs.foldl (loadStep totalModels) s

/-- Tracker state at the start of the mount effect: `setLoading(true)`,
`textureLoaded = false`, `modelsLoaded = 0`. -/
def initLoadState : LoadState :=
  { textureLoaded := false, modelsLoaded := 0, loading := true }

/-- Number of model-completion events in a run. -/
def countModel : List LoadEvent → ℕ
  | [] => 0
  | .model :: rest => countModel rest + 1
  | .texture :: rest => countModel rest

/-- Whether a run contains the texture-completion event. -/
def hasTexture : List LoadEvent → Bool
  | [] => false
  | .texture :: _ => true
  | .model :: rest => hasTexture rest

/-- Field preservation of the readiness check: it never touches
`textureLoaded`. -/
lemma check_textureLoaded (t : ℕ) (s : LoadState) :
    (checkLoadingComplete t s).textureLoaded = s.textureLoaded := by
  unfold checkLoadingComplete
  split <;> rfl

/-- Field preservation of the readiness check: it never touches
`modelsLoaded`. -/
lemma check_modelsLoaded (t : ℕ) (s : LoadState) :
    (checkLoadingComplete t s).modelsLoaded = s.modelsLoaded := by
  unfold checkLoadingComplete
  split <;> rfl

/-- A cleared `loading` flag survives the readiness check. -/
lemma check_loading_mono (t : ℕ) (s : LoadState) (h : s.loading = false) :
    (checkLoadingComplete t s).loading = false := by
  unfold checkLoadingComplete
  split <;> simp [h]

/-- A cleared `loading` flag survives any load callback. -/
lemma loadStep_loading_mono (t : ℕ) (s : LoadState) (e : LoadEvent) (h : s.loading = false) :
    (loadStep t s e).loading = false := by
  unfold loadStep
  apply check_loading_mono
  cases e <;> simpa [applyLoadEvent] using h

/-- A cleared `loading` flag survives any sequence of load callbacks:
the ready transition fires at most once. -/
lemma run_loading_mono (t : ℕ) (evs : List LoadEvent) :
    ∀ s : LoadState, s.loading = false → (runLoadEvents t s evs).loading = false := by
  induction evs with
  | nil => intro s h; exact h
  | cons e rest ih =>
    intro s h
    exact ih (loadStep t s e) (loadStep_loading_mono t s e h)

/-- Unfolding of a run over a cons cell. -/
lemma runLoadEvents_cons (t : ℕ) (s : LoadState) (e : LoadEvent) (rest : List LoadEvent) :
    runLoadEvents t s (e :: rest) = runLoadEvents t (loadStep t s e) rest := rfl

/-- A run over concatenated event lists is the composition of the runs. -/
lemma runLoadEvents_append (t : ℕ) (s : LoadState) (xs ys : List LoadEvent) :
    runLoadEvents t s (xs ++ ys) = runLoadEvents t (runLoadEvents t s xs) ys := by
  unfold runLoadEvents
  exact List.foldl_append _ _ _ _

/-- Texture-completion events make `textureLoaded` true and keep it true. -/
lemma loadStep_texture_textureLoaded (t : ℕ) (s : LoadState) :
    (loadStep t s .texture).textureLoaded = true := by
  simp [loadStep, check_textureLoaded, applyLoadEvent]

/-- Model-completion events do not touch `textureLoaded`. -/
lemma loadStep_model_textureLoaded (t : ℕ) (s : LoadState) :
    (loadStep t s .model).textureLoaded = s.textureLoaded := by
  simp [loadStep, check_textureLoaded, applyLoadEvent]

/-- Texture-completion events do not touch `modelsLoaded`. -/
lemma loadStep_texture_modelsLoaded (t : ℕ) (s : LoadState) :
    (loadStep t s .texture).modelsLoaded = s.modelsLoaded := by
  simp [loadStep, check_modelsLoaded, applyLoadEvent]

/-- Model-completion events increment `modelsLoaded`. -/
lemma loadStep_model_modelsLoaded (t : ℕ) (s : LoadState) :
    (loadStep t s .model).modelsLoaded = s.modelsLoaded + 1 := by
  simp [loadStep, check_modelsLoaded, applyLoadEvent]

/-- Without a texture event the `loading` flag never changes (the readiness
condition requires `textureLoaded`). -/
lemma run_loading_no_texture (t : ℕ) (evs : List LoadEvent) :
    ∀ s : LoadState, s.textureLoaded = false → hasTexture evs = false →
      (runLoadEvents t s evs).loading = s.loading := by
  induction evs with
  | nil => intro s _ _; rfl
  | cons e rest ih =>
    intro s hst hev
    cases e with
    | texture => simp [hasTexture] at hev
    | model =>
      rw [runLoadEvents_cons]
      have h1 : (loadStep t s .model).textureLoaded = false := by
        rw [loadStep_model_textureLoaded, hst]
      have h2 : (loadStep t s .model).loading = s.loading := by
        unfold loadStep checkLoadingComplete applyLoadEvent
        simp [hst]
      rw [ih (loadStep t s .model) h1 (by simpa [hasTexture] using hev), h2]

/-- While fewer models have completed (counting the whole run) than are
configured, the `loading` flag never changes (the readiness condition
requires `modelsLoaded === totalModels` and the counter only grows). -/
lemma run_loading_few_models (t : ℕ) (evs : List LoadEvent) :
    ∀ s : LoadState, s.modelsLoaded + countModel evs < t →
      (runLoadEvents t s evs).loading = s.loading := by
  induction evs with
  | nil => intro s _; rfl
  | cons e rest ih =>
    intro s h
    cases e with
    | texture =>
      rw [runLoadEvents_cons]
      have hne : s.modelsLoaded ≠ t := by
        simp only [countModel] at h
        omega
      have h2 : (loadStep t s .texture).loading = s.loading := by
        unfold loadStep checkLoadingComplete applyLoadEvent
        simp [hne]
      have h3 : (loadStep t s .texture).modelsLoaded + countModel rest < t := by
        rw [loadStep_texture_modelsLoaded]
        simp only [countModel] at h
        omega
      rw [ih (loadStep t s .texture) h3, h2]
    | model =>
      rw [runLoadEvents_cons]
      have hne : s.modelsLoaded + 1 ≠ t := by
        simp only [countModel] at h
        omega
      have h2 : (loadStep t s .model).loading = s.loading := by
        unfold loadStep checkLoadingComplete applyLoadEvent
        simp [hne]
      have h3 : (loadStep t s .model).modelsLoaded + countModel rest < t := by
        rw [loadStep_model_modelsLoaded]
        simp only [countModel] at h
        omega
      rw [ih (loadStep t s .model) h3, h2]

/-- When the run contains the texture event and exactly completes the model
count, the callback that finishes last finds the readiness condition true
and clears `loading`. -/
lemma run_completes (t : ℕ) (evs : List LoadEvent) :
    ∀ s : LoadState, evs ≠ [] → (s.textureLoaded || hasTexture evs) = true →
      s.modelsLoaded + countModel evs = t →
      (runLoadEvents t s evs).loading = false := by
  induction evs with
  | nil => intro s h; exact absurd rfl h
  | cons e rest ih =>
    intro s _ htex hcnt
    cases hrest : rest with
    | nil =>
      subst hrest
      cases e with
      | texture =>
        have hm : s.modelsLoaded = t := by
          simpa [countModel] using hcnt
        show (loadStep t s .texture).loading = false
        unfold loadStep checkLoadingComplete applyLoadEvent
        simp [hm]
      | model =>
        have hst : s.textureLoaded = true := by
          simpa [hasTexture] using htex
        have hm : s.modelsLoaded + 1 = t := by
          simpa [countModel] using hcnt
        show (loadStep t s .model).loading = false
        unfold loadStep checkLoadingComplete applyLoadEvent
        simp [hst, hm]
    | cons e2 rest2 =>
      rw [runLoadEvents_cons, ← hrest]
      cases e with
      | texture =>
        refine ih (loadStep t s .texture) (by rw [hrest]; simp) ?_ ?_
        · rw [loadStep_texture_textureLoaded]
          simp
        · rw [loadStep_texture_modelsLoaded]
          simpa [countModel] using hcnt
      | model =>
        refine ih (loadStep t s .model) (by rw [hrest]; simp) ?_ ?_
        · rw [loadStep_model_textureLoaded]
          simpa [hasTexture] using htex
        · rw [loadStep_model_modelsLoaded]
          simp only [countModel] at hcnt
          omega

/-- C2: starting from the reset tracker, a run in which each configured
model completes at most once ends with the `loading` flag cleared exactly
when the texture completed and the model count equals the configured total;
once cleared it stays cleared under further events (the ready transition
fires at most once per scene configuration); and with 0 configured models
the texture completing alone makes the scene ready. -/
theorem scene_readiness_iff (totalModels : ℕ) (evs : List LoadEvent)
    (hcount : countModel evs ≤ totalModels) :
    ((runLoadEvents totalModels initLoadState evs).loading = false ↔
      (hasTexture evs = true ∧ countModel evs = totalModels)) ∧
    (∀ moreEvs : List LoadEvent,
      (runLoadEvents totalModels initLoadState evs).loading = false →
      (runLoadEvents totalModels initLoadState (evs ++ moreEvs)).loading = false) ∧
    (runLoadEvents 0 initLoadState [LoadEvent.texture]).loading = false := by
  refine ⟨⟨?_, ?_⟩, ?_, ?_⟩
  · intro hdone
    cases htex : hasTexture evs with
    | false =>
      exfalso
      have hrun := run_loading_no_texture totalModels evs initLoadState rfl htex
      rw [hdone] at hrun
      simp [initLoadState] at hrun
    | true =>
      refine ⟨rfl, ?_⟩
      by_contra hcnt
      have hlt : countModel evs < totalModels := lt_of_le_of_ne hcount hcnt
      have hrun := run_loading_few_models totalModels evs initLoadState
        (by simpa [initLoadState] using hlt)
      rw [hdone] at hrun
      simp [initLoadState] at hrun
  · rintro ⟨htex, hcnt⟩
    have hne : evs ≠ [] := by
      intro h
      rw [h] at htex
      simp [hasTexture] at htex
    refine run_completes totalModels evs initLoadState hne ?_ ?_
    · simp [initLoadState, htex]
    · simpa [initLoadState] using hcnt
  · intro moreEvs hdone
    rw [runLoadEvents_append]
    exact run_loading_mono totalModels moreEvs _ hdone
  · decide

/-- Witness for C2 at a concrete run: one texture and one model completion
against one configured model. -/
theorem scene_readiness_iff_witness :
    countModel [LoadEvent.texture, LoadEvent.model] ≤ 1 ∧
    ((runLoadEvents 1 initLoadState [LoadEvent.texture, LoadEvent.model]).loading = false ↔
      (hasTexture [LoadEvent.texture, LoadEvent.model] = true ∧
        countModel [LoadEvent.texture, LoadEvent.model] = 1)) :=
  ⟨by decide, (scene_readiness_iff 1 [LoadEvent.texture, LoadEvent.model] (by decide)).1⟩

/-! Orientation Source and Frame Scheduler (src/components/ThreeView.tsx).

The mounted scene keeps: the drag fields (`isUserInteracting`, `startX`,
`startY`, `onPointerDownLon`, `onPointerDownLat`, `lonRef`, `latRef`), the
gyro flag (`gyroActiveRef`, set to true by `enableMotionControls` on a
granted permission or by `testOrientation` on a first non-null probe
reading, and never set to false while the scene is mounted), the
device-orientation handler closure (`hasInitialized`, `alphaOffset`), and
the camera rotation.  The camera rotation is recorded as the constructor of
whichever sub-mode last wrote it together with the numeric arguments it
passed: the trigonometric conversions downstream (`lookAt`, the Euler to
quaternion conversion in `setObjectQuaternion`) are fixed functions of
those arguments, so equality of the recorded arguments gives equality of
the applied rotations. -/

/-- Drag-control fields of the mount effect. -/
structure DragState where
  isUserInteracting : Bool
  startX : ℚ
  startY : ℚ
  onPointerDownLon : ℚ
  onPointerDownLat : ℚ
  lon : ℚ
  lat : ℚ
deriving Repr, DecidableEq

/-- Drag fields at mount: nothing pressed, `lonRef = latRef = 0`. -/
def initDrag : DragState :=
  { isUserInteracting := false
    startX := 0
    startY := 0
    onPointerDownLon := 0
    onPointerDownLat := 0
    lon := 0
    lat := 0 }

/-- Embedding of `onPointerDown`: record the press coordinates and the
longitude/latitude at the drag origin. -/
def onPointerDown (d : DragState) (x y : ℚ) : DragState :=
  { d with
    isUserInteracting := true
    startX := x
    startY := y
    onPointerDownLon := d.lon
    onPointerDownLat := d.lat }

/-- Embedding of `onPointerMove`: while pressed, set
`lon = (startX - x) * 0.1 + onPointerDownLon` and
`lat = (y - startY) * 0.1 + onPointerDownLat`. -/
def onPointerMove (d : DragState) (x y : ℚ) : DragState :=
  if d.isUserInteracting then
    { d with
      lon := (d.startX - x) * 0.1 + d.onPointerDownLon
      lat := (y - d.startY) * 0.1 + d.onPointerDownLat }
  else d

/-- Embedding of `onPointerUp`: stop updating. -/
def onPointerUp (d : DragState) : DragState :=
  { d with isUserInteracting := false }

/-- Device-orientation handler closure state: `hasInitialized` and the
captured `alphaOffset`. -/
structure SensorState where
  hasInitialized : Bool
  alphaOffset : ℚ
deriving Repr, DecidableEq

/-- Handler closure state when the listener attaches: `alphaOffset = 0`,
`hasInitialized = false`. -/
def initSensor : SensorState :=
  { hasInitialized := false, alphaOffset := 0 }

/-- Camera rotation, recorded as the last writer and the numeric arguments
it passed to the fixed trigonometric conversion: `fromDrag lon lat` stands
for the `camera.lookAt` call on the forward vector of `(lon, lat)`, and
`fromSensor alpha beta gamma orient` for `setObjectQuaternion` applied to
those four radian values. -/
inductive CamRot where
  | initial
  | fromDrag (lon lat : ℚ)
  | fromSensor (alpha beta gamma orient : ℚ)
deriving Repr, DecidableEq

/-- Embedding of `onDeviceOrientation`: return unchanged when any of
alpha/beta/gamma is null; otherwise capture `alphaOffset = -alpha` on the
first valid reading, then write the camera rotation from
`degToRad(alpha + alphaOffset)`, `degToRad(beta)`, `degToRad(gamma)` and
the screen-rotation angle. -/
def onDeviceOrientation (s : SensorState) (cam : CamRot)
    (alpha beta gamma : Option ℚ) (orient : ℚ) : SensorState × CamRot :=
  match alpha, beta, gamma with
  | some a, some b, some g =>
    let s' := if s.hasInitialized then s
      else { hasInitialized := true, alphaOffset := -a }
    (s', CamRot.fromSensor (degToRad (a + s'.alphaOffset)) (degToRad b) (degToRad g)
      (degToRad orient))
  | _, _, _ => (s, cam)

/-- Latitude clamp applied by the drag branch of `animate`:
`Math.max(-85, Math.min(85, latRef.current))`. -/
def clampLat (lat : ℚ) : ℚ := max (-85) (min 85 lat)

/-- Full per-mount state of the orientation controller.  The glasses state
(`GlassesState` above) is mutated by the tick as well, but only through
`update`/`animateSwap`, which never touch the camera rotation or the mode
flags, so it is kept separate. -/
structure SceneState where
  gyroActive : Bool
  drag : DragState
  sensor : SensorState
  camera : CamRot
deriving Repr, DecidableEq

/-- Scene state right after mount: drag authoritative, listener state
fresh, camera at its construction rotation. -/
def initScene : SceneState :=
  { gyroActive := false, drag := initDrag, sensor := initSensor, camera := CamRot.initial }

/-- Events of a mounted scene: one `animate` tick, the pointer handlers, a
device-orientation event (its listener is attached only while
`gyroActive`), a granted iOS motion permission, and the one-shot
`testOrientation` probe reading. -/
inductive SceneEvent where
  | tick
  | pointerDown (x y : ℚ)
  | pointerMove (x y : ℚ)
  | pointerUp
  | deviceOrientation (alpha beta gamma : Option ℚ) (orient : ℚ)
  | permissionGranted
  | probeReading (alpha : Option ℚ)
deriving Repr, DecidableEq

/-- One step of the mounted scene.  The tick applies the drag branch of
`animate` only when the gyro is not active; the device-orientation handler
runs only while `gyroActive` (its listener is attached by the effect gated
on `gyroActive`); `enableMotionControls` and `testOrientation` only ever
set the gyro flag to true. -/
def stepScene (s : SceneState) : SceneEvent → SceneState
  | .tick =>
    if s.gyroActive then s
    else
      let lat := clampLat s.drag.lat
      { s with
        drag := { s.drag with lat := lat }
        camera := CamRot.fromDrag s.drag.lon lat }
  | .pointerDown x y => { s with drag := onPointerDown s.drag x y }
  | .pointerMove x y => { s with drag := onPointerMove s.drag x y }
  | .pointerUp => { s with drag := onPointerUp s.drag }
  | .deviceOrientation a b g o =>
    if s.gyroActive then
      let r := onDeviceOrientation s.sensor s.camera a b g o
      { s with sensor := r.1, camera := r.2 }
    else s
  | .permissionGranted => { s with gyroActive := true }
  | .probeReading a => if a.isSome then { s with gyroActive := true } else s

/-- Fold a sequence of scene events over the scene state. -/
def runScene (s : SceneState) (evs : List SceneEvent) : SceneState :=
  evs.foldl stepScene s

/-- No step of a mounted scene ever clears the gyro flag. -/
lemma stepScene_gyro_mono (st : SceneState) (ev : SceneEvent) (h : st.gyroActive = true) :
    (stepScene st ev).gyroActive = true := by
  cases ev with
  | tick => simp [stepScene, h]
  | pointerDown x y => simp [stepScene, h]
  | pointerMove x y => simp [stepScene, h]
  | pointerUp => simp [stepScene, h]
  | deviceOrientation a b g o => simp [stepScene, h]
  | permissionGranted => simp [stepScene]
  | probeReading a =>
    simp only [stepScene]
    split <;> simp [h]

/-- No sequence of steps of a mounted scene ever clears the gyro flag. -/
lemma runScene_gyro_mono (evs : List SceneEvent) :
    ∀ st : SceneState, st.gyroActive = true → (runScene st evs).gyroActive = true := by
  induction evs with
  | nil => intro st h; exact h
  | cons e rest ih =>
    intro st h
    exact ih (stepScene st e) (stepScene_gyro_mono st e h)

/-- Camera write performed by one tick: nothing when the gyro is active,
the drag look direction otherwise. -/
lemma stepScene_tick_camera (st : SceneState) :
    (stepScene st SceneEvent.tick).camera =
      if st.gyroActive then st.camera
      else CamRot.fromDrag st.drag.lon (clampLat st.drag.lat) := by
  by_cases hg : st.gyroActive <;> simp [stepScene, hg]

/-- C6: once the gyro flag is set during a mounted scene it stays set under
every subsequent event, every subsequent tick leaves the camera rotation
unchanged (the drag branch does not write it), and at any state a tick
writes the camera through at most one sub-mode: the drag look direction
exactly when the gyro is inactive, nothing otherwise; device-orientation
events write nothing while the gyro is inactive (their listener is not
attached). -/
theorem sensor_mode_permanent (s : SceneState) (evs : List SceneEvent)
    (h : s.gyroActive = true) :
    (runScene s evs).gyroActive = true ∧
    (stepScene (runScene s evs) SceneEvent.tick).camera = (runScene s evs).camera ∧
    (∀ st : SceneState, (stepScene st SceneEvent.tick).camera =
      if st.gyroActive then st.camera
      else CamRot.fromDrag st.drag.lon (clampLat st.drag.lat)) ∧
    (∀ st : SceneState, st.gyroActive = false →
      ∀ (a b g : Option ℚ) (o : ℚ),
        stepScene st (SceneEvent.deviceOrientation a b g o) = st) := by
  have hg := runScene_gyro_mono evs s h
  refine ⟨hg, ?_, stepScene_tick_camera, ?_⟩
  · rw [stepScene_tick_camera, if_pos hg]
  · intro st hst a b g o
    simp [stepScene, hst]

/-- Witness for C6 at a concrete gyro-active state. -/
theorem sensor_mode_permanent_witness :
    ({ initScene with gyroActive := true } : SceneState).gyroActive = true ∧
    (runScene { initScene with gyroActive := true } [SceneEvent.tick]).gyroActive = true :=
  ⟨rfl, (sensor_mode_permanent { initScene with gyroActive := true } [SceneEvent.tick] rfl).1⟩

/-- C7: the first valid sensor reading captures `alphaOffset = -alpha`
(here `alpha = 40`) and applies the rotation computed with effective alpha
`40 + (-40) = 0`; the offset is never overwritten afterwards, so every
later reading with `alpha = 40` and the same beta/gamma/screen angle also
applies exactly the rotation computed with effective alpha 0. -/
theorem sensor_alpha_offset_cancels (cam : CamRot) (b0 g0 o0 : ℚ) :
    (onDeviceOrientation initSensor cam (some 40) (some b0) (some g0) o0).1.hasInitialized
      = true ∧
    (onDeviceOrientation initSensor cam (some 40) (some b0) (some g0) o0).1.alphaOffset
      = -40 ∧
    (onDeviceOrientation initSensor cam (some 40) (some b0) (some g0) o0).2 =
      CamRot.fromSensor (degToRad 0) (degToRad b0) (degToRad g0) (degToRad o0) ∧
    (∀ (s : SensorState) (cam' : CamRot) (a b g : Option ℚ) (o : ℚ),
      s.hasInitialized = true → (onDeviceOrientation s cam' a b g o).1 = s) ∧
    (∀ (s : SensorState) (cam' : CamRot) (b g o : ℚ),
      s.hasInitialized = true → s.alphaOffset = -40 →
      (onDeviceOrientation s cam' (some 40) (some b) (some g) o).2 =
        CamRot.fromSensor (degToRad 0) (degToRad b) (degToRad g) (degToRad o)) := by
  have hzero : (40 : ℚ) + -40 = 0 := by norm_num
  refine ⟨rfl, rfl, ?_, ?_, ?_⟩
  · show CamRot.fromSensor (degToRad (40 + -(40 : ℚ))) (degToRad b0) (degToRad g0)
      (degToRad o0) = CamRot.fromSensor (degToRad 0) (degToRad b0) (degToRad g0) (degToRad o0)
    rw [hzero]
  · intro s cam' a b g o hs
    cases a with
    | none => rfl
    | some a' =>
      cases b with
      | none => rfl
      | some b' =>
        cases g with
        | none => rfl
        | some g' =>
          simp [onDeviceOrientation, hs]
  · intro s cam' b g o hs hoff
    show (onDeviceOrientation s cam' (some 40) (some b) (some g) o).2 = _
    simp only [onDeviceOrientation, hs, if_true]
    rw [hoff, hzero]

/-- Witness for C7 at an already initialized handler with offset -40. -/
theorem sensor_alpha_offset_cancels_witness :
    (({ hasInitialized := true, alphaOffset := -40 } : SensorState).hasInitialized = true ∧
      ({ hasInitialized := true, alphaOffset := -40 } : SensorState).alphaOffset = -40) ∧
    (onDeviceOrientation { hasInitialized := true, alphaOffset := -40 } CamRot.initial
        (some 40) (some 5) (some 6) 0).2 =
      CamRot.fromSensor (degToRad 0) (degToRad 5) (degToRad 6) (degToRad 0) :=
  ⟨⟨rfl, rfl⟩, (sensor_alpha_offset_cancels CamRot.initial 1 2 3).2.2.2.2
    { hasInitialized := true, alphaOffset := -40 } CamRot.initial 5 6 0 rfl rfl⟩

/-- C8: with sensor mode inactive, a pointer-down at `(sx, sy)` followed by
a pointer-move at `(sx + 100, sy)` changes the longitude by exactly
`100 * 0.1 = 10` degrees relative to the longitude recorded at
pointer-down (the new longitude is that longitude minus 10), and leaves
the latitude at its pointer-down value. -/
theorem drag_longitude_delta (st : SceneState) (sx sy : ℚ) (h : st.gyroActive = false) :
    (runScene st [SceneEvent.pointerDown sx sy,
      SceneEvent.pointerMove (sx + 100) sy]).drag.lon = st.drag.lon - 10 ∧
    |(runScene st [SceneEvent.pointerDown sx sy,
      SceneEvent.pointerMove (sx + 100) sy]).drag.lon - st.drag.lon| = 100 * 0.1 ∧
    (runScene st [SceneEvent.pointerDown sx sy,
      SceneEvent.pointerMove (sx + 100) sy]).drag.lat = st.drag.lat := by
  have hlon : (runScene st [SceneEvent.pointerDown sx sy,
      SceneEvent.pointerMove (sx + 100) sy]).drag.lon
      = (sx - (sx + 100)) * 0.1 + st.drag.lon := rfl
  have hlat : (runScene st [SceneEvent.pointerDown sx sy,
      SceneEvent.pointerMove (sx + 100) sy]).drag.lat
      = (sy - sy) * 0.1 + st.drag.lat := rfl
  refine ⟨?_, ?_, ?_⟩
  · rw [hlon]
    ring
  · rw [hlon]
    have hv : (sx - (sx + 100)) * (0.1 : ℚ) + st.drag.lon - st.drag.lon = -10 := by ring
    rw [hv]
    norm_num
  · rw [hlat]
    ring

/-- Witness for C8 on the freshly mounted scene. -/
theorem drag_longitude_delta_witness :
    initScene.gyroActive = false ∧
    (runScene initScene [SceneEvent.pointerDown 0 0,
      SceneEvent.pointerMove (0 + 100) 0]).drag.lon = initScene.drag.lon - 10 :=
  ⟨rfl, (drag_longitude_delta initScene 0 0 rfl).1⟩

/-- C9: a device-orientation event in which alpha, beta or gamma is null is
silently dropped: the handler returns with the closure state and the camera
rotation both unchanged (the embedding is a total function, so no error is
raised). -/
theorem null_sensor_reading_dropped (s : SensorState) (cam : CamRot)
    (alpha beta gamma : Option ℚ) (orient : ℚ)
    (h : alpha = none ∨ beta = none ∨ gamma = none) :
    onDeviceOrientation s cam alpha beta gamma orient = (s, cam) := by
  cases alpha with
  | none => rfl
  | some a =>
    cases beta with
    | none => rfl
    | some b =>
      cases gamma with
      | none => rfl
      | some g => rcases h with h | h | h <;> simp at h

/-- Witness for C9 at a concrete null reading. -/
theorem null_sensor_reading_dropped_witness :
    ((none : Option ℚ) = none ∨ (some (1 : ℚ)) = none ∨ (some (2 : ℚ)) = none) ∧
    onDeviceOrientation initSensor CamRot.initial none (some 1) (some 2) 0
      = (initSensor, CamRot.initial) :=
  ⟨Or.inl rfl, null_sensor_reading_dropped initSensor CamRot.initial none
    (some 1) (some 2) 0 (Or.inl rfl)⟩
